import Mathlib

/-
Shallow embedding of the download pipeline of yt-dlp-web (src/main.rs).

Modelling conventions:
  * Bytes and Unicode code points are `Nat`; a Rust `Vec<u8>` is `List Nat`,
    a Rust `String` (title) is its list of code points (`List Nat`).
  * A subprocess invocation (`Command::new("yt-dlp") ... .output().await`) is
    an oracle `run : List String -> SpawnResult` applied to the argument list
    the code builds; `SpawnResult.ioError` is `.output()` returning `Err`,
    `SpawnResult.ok pr` carries the captured `ProcessResult`.
  * `String::from_utf8` is the executable UTF-8 decoder `decodeUtf8`
    (byte list to code-point list, `none` on invalid input), mirroring the
    Rust validator: continuation ranges, surrogate and overlong exclusion.
  * The filesystem is the list of paths that exist; `get_video_stream`
    receives the filesystem contents as they stand after the external
    process ran, and returns the filesystem as the handler leaves it.
    The `File::open` outcome is the oracle `openErr` (`some e` = io error).
  * `urlencoding::encode` / `urlencoding::decode` are `percentEncode` /
    `percentDecode` on UTF-8 bytes.
-/

/-- Captured result of one external-extractor invocation: exit code
(`none` when killed by a signal), raw stdout bytes, raw stderr bytes. -/
structure ProcessResult where
  code : Option Int
  stdout : List Nat
  stderr : List Nat
deriving DecidableEq

/-- Outcome of `.output().await`: an io error at spawn, or a process result. -/
inductive SpawnResult where
  | ioError (e : Nat)
  | ok (pr : ProcessResult)
deriving DecidableEq

/-- The error enum `DownloadError` of src/main.rs (io-error payloads are
abstracted to `Nat`, the `FromUtf8Error` payload is dropped). -/
inductive DownloadError where
  | TitleCommand (e : Nat)
  | VideoCommand (e : Nat)
  | VideoExitNoCode
  | VideoExitErrorCode (c : Int)
  | TitleExitNoCode
  | TitleExitErrorCode (c : Int)
  | TempFileOpen (e : Nat)
  | FromUtf8
deriving DecidableEq

/-- UTF-8 continuation byte test (0x80-0xBF). -/
def utf8Cont (b : Nat) : Bool := 0x80 ≤ b && b ≤ 0xBF

/-- Rust `String::from_utf8`, as a decoder from bytes to code points:
`none` exactly when the bytes are not valid UTF-8 (wrong continuation
bytes, overlong forms, surrogates and values above 0x10FFFF rejected). -/
def decodeUtf8 : List Nat → Option (List Nat)
  | [] => some []
  | b :: rest =>
    if b ≤ 0x7F then (decodeUtf8 rest).map (fun t => b :: t)
    else if 0xC2 ≤ b && b ≤ 0xDF then
      match rest with
      | c1 :: r =>
        if utf8Cont c1 then
          (decodeUtf8 r).map (fun t => ((b - 0xC0) * 0x40 + (c1 - 0x80)) :: t)
        else none
      | [] => none
    else if 0xE0 ≤ b && b ≤ 0xEF then
      match rest with
      | c1 :: c2 :: r =>
        if (((if b = 0xE0 then 0xA0 else 0x80) ≤ c1 &&
             c1 ≤ (if b = 0xED then 0x9F else 0xBF)) && utf8Cont c2) then
          (decodeUtf8 r).map
            (fun t => ((b - 0xE0) * 0x1000 + (c1 - 0x80) * 0x40 + (c2 - 0x80)) :: t)
        else none
      | _ => none
    else if 0xF0 ≤ b && b ≤ 0xF4 then
      match rest with
      | c1 :: c2 :: c3 :: r =>
        if (((if b = 0xF0 then 0x90 else 0x80) ≤ c1 &&
             c1 ≤ (if b = 0xF4 then 0x8F else 0xBF)) &&
            (utf8Cont c2 && utf8Cont c3)) then
          (decodeUtf8 r).map
            (fun t => ((b - 0xF0) * 0x40000 + (c1 - 0x80) * 0x1000 +
                       (c2 - 0x80) * 0x40 + (c3 - 0x80)) :: t)
        else none
      | _ => none
    else none

/-- UTF-8 encoder (code points to bytes), inverse of `decodeUtf8` on valid
scalar values; used where the Rust code takes `.as_str()` bytes of a title. -/
def encodeUtf8Char (c : Nat) : List Nat :=
  if c ≤ 0x7F then [c]
  else if c ≤ 0x7FF then [0xC0 + c / 0x40, 0x80 + c % 0x40]
  else if c ≤ 0xFFFF then
    [0xE0 + c / 0x1000, 0x80 + (c / 0x40) % 0x40, 0x80 + c % 0x40]
  else
    [0xF0 + c / 0x40000, 0x80 + (c / 0x1000) % 0x40,
     0x80 + (c / 0x40) % 0x40, 0x80 + c % 0x40]

/-- UTF-8 bytes of a list of code points. -/
def encodeUtf8 : List Nat → List Nat
  | [] => []
  | c :: rest => encodeUtf8Char c ++ encodeUtf8 rest

/-- Rust `char::is_whitespace` (the Unicode White_Space code points). -/
def isWhitespaceChar (c : Nat) : Bool :=
  (9 ≤ c && c ≤ 13) || c = 32 || c = 0x85 || c = 0xA0 || c = 0x1680 ||
  (0x2000 ≤ c && c ≤ 0x200A) || c = 0x2028 || c = 0x2029 ||
  c = 0x202F || c = 0x205F || c = 0x3000

/-- Rust `str::trim` on a list of code points. -/
def trimChars (l : List Nat) : List Nat :=
  ((l.dropWhile isWhitespaceChar).reverse.dropWhile isWhitespaceChar).reverse

/-- RFC 3986 unreserved bytes, the set `urlencoding::encode` leaves as-is:
ASCII alphanumerics and `-` `.` `_` `~`. -/
def isUnreserved (b : Nat) : Bool :=
  (48 ≤ b && b ≤ 57) || (65 ≤ b && b ≤ 90) || (97 ≤ b && b ≤ 122) ||
  b = 45 || b = 46 || b = 95 || b = 126

/-- Uppercase hex digit of a value below 16, as an ASCII byte. -/
def hexDigit (n : Nat) : Nat := if n < 10 then 48 + n else 55 + n

/-- Value of an ASCII hex digit byte (either case), `none` otherwise. -/
def hexVal (b : Nat) : Option Nat :=
  if 48 ≤ b && b ≤ 57 then some (b - 48)
  else if 65 ≤ b && b ≤ 70 then some (b - 55)
  else if 97 ≤ b && b ≤ 102 then some (b - 87)
  else none

/-- `urlencoding::encode` on UTF-8 bytes: unreserved bytes pass through,
every other byte becomes `%` followed by two uppercase hex digits. -/
def percentEncode : List Nat → List Nat
  | [] => []
  | b :: rest =>
    if isUnreserved b then b :: percentEncode rest
    else 37 :: hexDigit (b / 16) :: hexDigit (b % 16) :: percentEncode rest

/-- `urlencoding::decode` on bytes: `%` followed by two hex digits becomes
that byte; a `%` not followed by two hex digits is passed through. -/
def percentDecode : List Nat → List Nat
  | [] => []
  | 37 :: h :: l :: r =>
    match hexVal h, hexVal l with
    | some hv, some lv => (hv * 16 + lv) :: percentDecode r
    | _, _ => 37 :: percentDecode (h :: l :: r)
  | b :: rest => b :: percentDecode rest

/-- ASCII string literal as its list of byte values (used for the literal
pieces the handler concatenates into header values). -/
def strBytes (s : String) : List Nat := s.data.map Char.toNat

/-- The byte-validity test of `http::HeaderValue` (`HeaderMap` insertion):
a header value byte must be 32..=255 excluding 127, or horizontal tab. -/
def isValidHeaderByte (b : Nat) : Bool := (32 ≤ b && b != 127) || b == 9

/-- The argument list built by `get_video_title` for the yt-dlp invocation. -/
def titleCmdArgs (url : String) : List String :=
  ["-S", "res,ext:mp4:m4a", "--recode", "mp4", "--print", "filename", url]

/-- Exit-status and stdout handling of `get_video_title`, applied to the
spawn outcome: spawn error, then exit-code classification (`code?;`), then
UTF-8 decoding of stdout with `trim`. -/
def titleClassify (s : SpawnResult) : Except DownloadError (List Nat) :=
  match s with
  | .ioError e => .error (.TitleCommand e)
  | .ok pr =>
    match pr.code with
    | some c =>
      if c = 0 then
        match decodeUtf8 pr.stdout with
        | some cps => .ok (trimChars cps)
        | none => .error .FromUtf8
      else .error (.TitleExitErrorCode c)
    | none => .error .TitleExitNoCode

/-- `get_video_title` of src/main.rs: one title-mode invocation on the
argument list `titleCmdArgs url`, then `titleClassify`. -/
def get_video_title (run : List String → SpawnResult) (url : String) :
    Except DownloadError (List Nat) :=
  titleClassify (run (titleCmdArgs url))

/-- The lazy byte stream handed back on success: `ReaderStream::new` over
the opened temp file. -/
structure ReaderStream where
  path : String
deriving DecidableEq

/-- The temp path allocation of `get_video_stream`:
`env::temp_dir()` joined with `format!("ytdlp-web-\x7b\x7d.mp4", Uuid::new_v4())`. -/
def tempFilePath (tmpdir uuid : String) : String :=
  tmpdir ++ "/" ++ "ytdlp-web-" ++ uuid ++ ".mp4"

/-- The argument list built by `get_video_stream` for the yt-dlp invocation. -/
def fetchCmdArgs (path url : String) : List String :=
  ["-S", "res,ext:mp4:m4a", "--recode", "mp4", "-o", path, url]

/-- Result handling of `get_video_stream`, applied to the spawn outcome:
spawn error, then UTF-8 decoding of stdout and stderr (in that order, for
the debug logs), then exit-code classification, then `File::open`. -/
def fetchClassify (s : SpawnResult) (openErr : Option Nat) (path : String) :
    Except DownloadError ReaderStream :=
  match s with
  | .ioError e => .error (.VideoCommand e)
  | .ok pr =>
    match decodeUtf8 pr.stdout with
    | none => .error .FromUtf8
    | some _ =>
      match decodeUtf8 pr.stderr with
      | none => .error .FromUtf8
      | some _ =>
        match pr.code with
        | some c =>
          if c = 0 then
            match openErr with
            | some e => .error (.TempFileOpen e)
            | none => .ok ⟨path⟩
          else .error (.VideoExitErrorCode c)
        | none => .error .VideoExitNoCode

/-- `get_video_stream` of src/main.rs. `fs1` is the set of paths existing
after the external process ran; the second component is the set of paths
existing when the function returns (the function performs no deletion). -/
def get_video_stream (run : List String → SpawnResult)
    (tmpdir uuid url : String) (fs1 : List String) (openErr : Option Nat) :
    Except DownloadError ReaderStream × List String :=
  (fetchClassify (run (fetchCmdArgs (tempFilePath tmpdir uuid) url)) openErr
     (tempFilePath tmpdir uuid), fs1)

/-- The query payload of the `/api/download` route. -/
structure DownloadVideoRequest where
  url : String
deriving DecidableEq

/-- The response the handler produces: success with status, the two header
values and the streamed body, or the error response of the `map_err` arm. -/
inductive HandlerResponse where
  | ok (status : Nat) (contentDisposition : List Nat) (contentType : List Nat)
      (body : ReaderStream)
  | errorResp (status : Nat) (message : String)
deriving DecidableEq

/-- The fallback filename substituted when title resolution fails. -/
def fallbackFilename : List Nat := strBytes "video"

/-- `download_video` of src/main.rs: resolve the title (fallback "video" on
any error, success titles percent-encoded), fetch the stream (500 on any
error), then build the 200 response with Content-Disposition and
Content-Type headers. Returns the response and the final filesystem. -/
def download_video (run : List String → SpawnResult)
    (payload : DownloadVideoRequest) (tmpdir uuid : String)
    (fs1 : List String) (openErr : Option Nat) :
    HandlerResponse × List String :=
  let filename :=
    match get_video_title run payload.url with
    | .ok title => percentEncode (encodeUtf8 title)
    | .error _ => fallbackFilename
  match get_video_stream run tmpdir uuid payload.url fs1 openErr with
  | (.error _, fs) => (.errorResp 500 "Error downloading video stream", fs)
  | (.ok stream, fs) =>
    (.ok 200 (strBytes "attachment; filename=" ++ filename)
       (strBytes "application/octet-stream") stream, fs)

/-- The title of a finished title phase as the handler uses it: the resolved
title on success, the fallback literal on any error. -/
def resolvedTitle : Except DownloadError (List Nat) → List Nat
  | .ok t => t
  | .error _ => strBytes "video"

/-! Helper lemmas. -/

theorem hexVal_hexDigit : ∀ n < 16, hexVal (hexDigit n) = some n := by decide

theorem isUnreserved_ne_percent {b : Nat} (h : isUnreserved b = true) : b ≠ 37 := by
  simp [isUnreserved] at h
  omega

theorem percentDecode_cons_of_ne (b : Nat) (xs : List Nat) (hb : b ≠ 37) :
    percentDecode (b :: xs) = b :: percentDecode xs := by
  rcases xs with _ | ⟨h, _ | ⟨l, r⟩⟩ <;> simp [percentDecode, hb]

theorem isValidHeaderByte_of_unreserved {b : Nat} (h : isUnreserved b = true) :
    isValidHeaderByte b = true := by
  simp [isUnreserved] at h
  simp [isValidHeaderByte]
  omega

theorem isValidHeaderByte_hexDigit {n : Nat} (h : n < 16) :
    isValidHeaderByte (hexDigit n) = true := by
  simp [hexDigit, isValidHeaderByte]
  split <;> omega

theorem percentEncode_validHeader (l : List Nat) (hl : ∀ b ∈ l, b < 256) :
    ∀ b ∈ percentEncode l, isValidHeaderByte b = true := by
  induction l with
  | nil => simp [percentEncode]
  | cons b rest ih =>
    have hb : b < 256 := hl b (List.mem_cons_self b rest)
    have hrest : ∀ x ∈ rest, x < 256 := fun x hx => hl x (List.mem_cons_of_mem b hx)
    intro x hx
    by_cases hu : isUnreserved b
    · rw [percentEncode, if_pos hu] at hx
      rcases List.mem_cons.1 hx with rfl | hx
      · exact isValidHeaderByte_of_unreserved hu
      · exact ih hrest x hx
    · rw [percentEncode, if_neg hu] at hx
      rcases List.mem_cons.1 hx with rfl | hx
      · decide
      rcases List.mem_cons.1 hx with rfl | hx
      · exact isValidHeaderByte_hexDigit (by omega)
      rcases List.mem_cons.1 hx with rfl | hx
      · exact isValidHeaderByte_hexDigit (Nat.mod_lt _ (by norm_num))
      · exact ih hrest x hx

theorem fetchClassify_error_shape (s : SpawnResult) (openErr : Option Nat)
    (path : String) (e : DownloadError)
    (h : fetchClassify s openErr path = .error e) :
    (∃ k, e = .VideoCommand k) ∨ e = .VideoExitNoCode ∨
    (∃ c, e = .VideoExitErrorCode c) ∨ (∃ k, e = .TempFileOpen k) ∨
    e = .FromUtf8 := by
  rcases s with k | pr
  · simp [fetchClassify] at h
    exact Or.inl ⟨k, h.symm⟩
  · rcases hso : decodeUtf8 pr.stdout with _ | so
    · simp [fetchClassify, hso] at h
      exact Or.inr (Or.inr (Or.inr (Or.inr h.symm)))
    · rcases hse : decodeUtf8 pr.stderr with _ | se
      · simp [fetchClassify, hso, hse] at h
        exact Or.inr (Or.inr (Or.inr (Or.inr h.symm)))
      · rcases hc : pr.code with _ | c
        · simp [fetchClassify, hso, hse, hc] at h
          exact Or.inr (Or.inl h.symm)
        · by_cases hc0 : c = 0
          · subst hc0
            rcases ho : openErr with _ | k
            · simp [fetchClassify, hso, hse, hc, ho] at h
            · simp [fetchClassify, hso, hse, hc, ho] at h
              exact Or.inr (Or.inr (Or.inr (Or.inl ⟨k, h.symm⟩)))
          · simp [fetchClassify, hso, hse, hc, hc0] at h
            exact Or.inr (Or.inr (Or.inl ⟨c, h.symm⟩))

theorem fetchClassify_not_fromUtf8 (pr : ProcessResult) (openErr : Option Nat)
    (path : String) (e : DownloadError)
    (h : fetchClassify (.ok pr) openErr path = .error e)
    (hso : (decodeUtf8 pr.stdout).isSome) (hse : (decodeUtf8 pr.stderr).isSome) :
    e ≠ .FromUtf8 := by
  rcases hso2 : decodeUtf8 pr.stdout with _ | so
  · rw [hso2] at hso; simp at hso
  rcases hse2 : decodeUtf8 pr.stderr with _ | se
  · rw [hse2] at hse; simp at hse
  rcases hc : pr.code with _ | c
  · simp [fetchClassify, hso2, hse2, hc] at h
    simp [← h]
  · by_cases hc0 : c = 0
    · subst hc0
      rcases ho : openErr with _ | k
      · simp [fetchClassify, hso2, hse2, hc, ho] at h
      · simp [fetchClassify, hso2, hse2, hc, ho] at h
        simp [← h]
    · simp [fetchClassify, hso2, hse2, hc, hc0] at h
      simp [← h]

theorem fetchClassify_fromUtf8_of_invalid (pr : ProcessResult)
    (openErr : Option Nat) (path : String)
    (h : decodeUtf8 pr.stdout = none ∨ decodeUtf8 pr.stderr = none) :
    fetchClassify (.ok pr) openErr path = .error .FromUtf8 := by
  rcases h with h | h
  · simp [fetchClassify, h]
  · rcases h1 : decodeUtf8 pr.stdout with _ | so
    · simp [fetchClassify, h1]
    · simp [fetchClassify, h1, h]

theorem fetchClassify_validity_congr (pr pr2 : ProcessResult)
    (openErr : Option Nat) (path : String) (hc : pr.code = pr2.code)
    (hso : (decodeUtf8 pr.stdout).isSome = (decodeUtf8 pr2.stdout).isSome)
    (hse : (decodeUtf8 pr.stderr).isSome = (decodeUtf8 pr2.stderr).isSome) :
    fetchClassify (.ok pr) openErr path = fetchClassify (.ok pr2) openErr path := by
  rcases h1 : decodeUtf8 pr.stdout with _ | so
  · have h2 : decodeUtf8 pr2.stdout = none := by
      rw [h1] at hso
      rcases h2 : decodeUtf8 pr2.stdout with _ | so2
      · rfl
      · rw [h2] at hso; simp at hso
    simp [fetchClassify, h1, h2]
  · obtain ⟨so2, h2⟩ : ∃ so2, decodeUtf8 pr2.stdout = some so2 := by
      rw [h1] at hso
      rcases h2 : decodeUtf8 pr2.stdout with _ | so2
      · rw [h2] at hso; simp at hso
      · exact ⟨so2, rfl⟩
    rcases he1 : decodeUtf8 pr.stderr with _ | se
    · have he2 : decodeUtf8 pr2.stderr = none := by
        rw [he1] at hse
        rcases he2 : decodeUtf8 pr2.stderr with _ | se2
        · rfl
        · rw [he2] at hse; simp at hse
      simp [fetchClassify, h1, h2, he1, he2]
    · obtain ⟨se2, he2⟩ : ∃ se2, decodeUtf8 pr2.stderr = some se2 := by
        rw [he1] at hse
        rcases he2 : decodeUtf8 pr2.stderr with _ | se2
        · rw [he2] at hse; simp at hse
        · exact ⟨se2, rfl⟩
      simp only [fetchClassify, h1, h2, he1, he2]
      rw [hc]

/-! Claim theorems. -/

/-- C1: the claim says that on a fetch-mode failure the handler returns 500
and the temp file no longer exists afterward, deletion being arranged on
every exit path. The 500 half holds, but `get_video_stream` (and the rest of
src/main.rs) never deletes the temp file: the filesystem is returned exactly
as the external process left it, so a file created before a non-zero exit
persists. This theorem shows (a) the function performs no deletion on any
path, and (b) on a concrete failing run the handler answers 500 while the
allocated temp file is still on disk. -/
theorem C1_fetch_error_leaves_temp_file :
    (∀ run tmpdir uuid url fs1 openErr,
      (get_video_stream run tmpdir uuid url fs1 openErr).2 = fs1) ∧
    (download_video (fun _ => .ok ⟨some 1, [], []⟩) ⟨"https://example.com/v"⟩
        "/tmp" "u" [tempFilePath "/tmp" "u"] none).1
      = .errorResp 500 "Error downloading video stream" ∧
    tempFilePath "/tmp" "u" ∈
      (download_video (fun _ => .ok ⟨some 1, [], []⟩) ⟨"https://example.com/v"⟩
        "/tmp" "u" [tempFilePath "/tmp" "u"] none).2 :=
  ⟨fun _ _ _ _ _ _ => rfl, rfl, List.mem_singleton.mpr rfl⟩

/-- C2 counterexample: the claim says every fetch-phase error is one of
VideoCommand, VideoExitNoCode, VideoExitErrorCode, TempFileOpen and that the
classification never depends on the bytes of stdout/stderr. Two runs that
differ only in the stdout bytes (same non-zero exit status) produce
different errors, one of them FromUtf8, outside the claimed set. -/
theorem C2_fetch_error_depends_on_stdout :
    (get_video_stream (fun _ => .ok ⟨some 1, [255], []⟩) "/tmp" "u"
        "https://example.com/v" [] none).1 = .error .FromUtf8 ∧
    (get_video_stream (fun _ => .ok ⟨some 1, [], []⟩) "/tmp" "u"
        "https://example.com/v" [] none).1 = .error (.VideoExitErrorCode 1) :=
  ⟨rfl, rfl⟩

/-- C2 (amended): every fetch-phase error is one of VideoCommand,
VideoExitNoCode, VideoExitErrorCode, TempFileOpen or FromUtf8; when the
process spawned, FromUtf8 occurs exactly when captured stdout or stderr is
not valid UTF-8 — in particular whatever the exit status, the validity check
coming before the status check; and apart from that UTF-8 validity the
classification depends only on the exit status and the file open: two
spawned results with the same exit status and the same validity of their
captured streams classify identically, whatever their decodable bytes. -/
theorem C2_fetch_error_classification :
    ∀ (run : List String → SpawnResult) (tmpdir uuid url : String)
      (fs1 : List String) (openErr : Option Nat),
      (∀ e, (get_video_stream run tmpdir uuid url fs1 openErr).1 = .error e →
        (∃ k, e = .VideoCommand k) ∨ e = .VideoExitNoCode ∨
        (∃ c, e = .VideoExitErrorCode c) ∨ (∃ k, e = .TempFileOpen k) ∨
        e = .FromUtf8) ∧
      (∀ pr, run (fetchCmdArgs (tempFilePath tmpdir uuid) url) = .ok pr →
        ((decodeUtf8 pr.stdout = none ∨ decodeUtf8 pr.stderr = none) ↔
          (get_video_stream run tmpdir uuid url fs1 openErr).1 =
            .error .FromUtf8)) ∧
      (∀ (run2 : List String → SpawnResult) (pr pr2 : ProcessResult),
        run (fetchCmdArgs (tempFilePath tmpdir uuid) url) = .ok pr →
        run2 (fetchCmdArgs (tempFilePath tmpdir uuid) url) = .ok pr2 →
        pr.code = pr2.code →
        (decodeUtf8 pr.stdout).isSome = (decodeUtf8 pr2.stdout).isSome →
        (decodeUtf8 pr.stderr).isSome = (decodeUtf8 pr2.stderr).isSome →
        (get_video_stream run tmpdir uuid url fs1 openErr).1 =
          (get_video_stream run2 tmpdir uuid url fs1 openErr).1) := by
  intro run tmpdir uuid url fs1 openErr
  refine ⟨?_, ?_, ?_⟩
  · intro e h
    exact fetchClassify_error_shape _ _ _ _ h
  · intro pr hpr
    constructor
    · intro hbad
      show fetchClassify (run (fetchCmdArgs (tempFilePath tmpdir uuid) url))
          openErr (tempFilePath tmpdir uuid) = .error .FromUtf8
      rw [hpr]
      exact fetchClassify_fromUtf8_of_invalid pr openErr _ hbad
    · intro h
      replace h : fetchClassify (run (fetchCmdArgs (tempFilePath tmpdir uuid)
          url)) openErr (tempFilePath tmpdir uuid) = .error .FromUtf8 := h
      rw [hpr] at h
      by_contra hno
      push_neg at hno
      rcases h1 : decodeUtf8 pr.stdout with _ | so
      · exact hno.1 h1
      rcases h2 : decodeUtf8 pr.stderr with _ | se
      · exact hno.2 h2
      exact fetchClassify_not_fromUtf8 pr openErr _ _ h
        (by rw [h1]; rfl) (by rw [h2]; rfl) rfl
  · intro run2 pr pr2 h1 h2 hc hso hse
    show fetchClassify (run (fetchCmdArgs (tempFilePath tmpdir uuid) url))
        openErr (tempFilePath tmpdir uuid) =
      fetchClassify (run2 (fetchCmdArgs (tempFilePath tmpdir uuid) url))
        openErr (tempFilePath tmpdir uuid)
    rw [h1, h2]
    exact fetchClassify_validity_congr pr pr2 openErr _ hc hso hse

/-- Witness for C2: a spawned run with invalid UTF-8 stdout (byte 0xFF) and
exit status 2 is classified FromUtf8 by the occurrence direction, and two
runs with the same exit status and decodable (but different) captured bytes
classify identically by the independence conjunct. -/
theorem C2_fetch_error_classification_witness :
    (get_video_stream (fun _ => .ok ⟨some 2, [255], []⟩) "/tmp" "u"
        "https://example.com/v" [] none).1 = .error .FromUtf8 ∧
    (get_video_stream (fun _ => .ok ⟨some 2, [104], [105]⟩) "/tmp" "u"
        "https://example.com/v" [] none).1 =
      (get_video_stream (fun _ => .ok ⟨some 2, [72, 73], []⟩) "/tmp" "u"
        "https://example.com/v" [] none).1 :=
  ⟨((C2_fetch_error_classification (fun _ => .ok ⟨some 2, [255], []⟩) "/tmp"
        "u" "https://example.com/v" [] none).2.1 ⟨some 2, [255], []⟩ rfl).mp
      (Or.inl rfl),
   (C2_fetch_error_classification (fun _ => .ok ⟨some 2, [104], [105]⟩) "/tmp"
        "u" "https://example.com/v" [] none).2.2
      (fun _ => .ok ⟨some 2, [72, 73], []⟩) ⟨some 2, [104], [105]⟩
      ⟨some 2, [72, 73], []⟩ rfl rfl rfl rfl rfl⟩

/-- C6: percent-decoding inverts percent-encoding on every byte string
(titles enter as their UTF-8 bytes, so every byte is below 256): the
Content-Disposition filename reconstructs the original title exactly. -/
theorem C6_percent_roundtrip (l : List Nat) (hl : ∀ b ∈ l, b < 256) :
    percentDecode (percentEncode l) = l := by
  induction l with
  | nil => rfl
  | cons b rest ih =>
    have hb : b < 256 := hl b (List.mem_cons_self b rest)
    have hrest : ∀ x ∈ rest, x < 256 := fun x hx => hl x (List.mem_cons_of_mem b hx)
    by_cases hu : isUnreserved b
    · rw [percentEncode, if_pos hu,
        percentDecode_cons_of_ne b _ (isUnreserved_ne_percent hu), ih hrest]
    · rw [percentEncode, if_neg hu]
      have h1 : b / 16 < 16 := by omega
      have h2 : b % 16 < 16 := by omega
      simp only [percentDecode, hexVal_hexDigit _ h1, hexVal_hexDigit _ h2]
      rw [ih hrest]
      have : b / 16 * 16 + b % 16 = b := by omega
      rw [this]

/-- Witness for C6: round trip on the UTF-8 bytes of "hi #é" (space, hash
and a non-ASCII character all require encoding). -/
theorem C6_percent_roundtrip_witness :
    percentDecode (percentEncode [104, 105, 32, 35, 195, 169]) =
      [104, 105, 32, 35, 195, 169] :=
  C6_percent_roundtrip [104, 105, 32, 35, 195, 169] (by decide)

/-- C3: the per-case contract of `get_video_title`: a spawned title process
with exit code 0 and UTF-8 stdout yields the decoded stdout trimmed of
surrounding whitespace; a non-zero exit code c yields TitleExitErrorCode c;
a missing exit code (killed by signal) yields TitleExitNoCode; and invalid
UTF-8 stdout (reached when the exit code is 0, the status being checked
first) yields the FromUtf8 error. -/
theorem C3_title_classification :
    ∀ (run : List String → SpawnResult) (url : String) (pr : ProcessResult),
      run (titleCmdArgs url) = .ok pr →
      (∀ cps, pr.code = some 0 → decodeUtf8 pr.stdout = some cps →
        get_video_title run url = .ok (trimChars cps)) ∧
      (∀ c, pr.code = some c → c ≠ 0 →
        get_video_title run url = .error (.TitleExitErrorCode c)) ∧
      (pr.code = none → get_video_title run url = .error .TitleExitNoCode) ∧
      (pr.code = some 0 → decodeUtf8 pr.stdout = none →
        get_video_title run url = .error .FromUtf8) := by
  intro run url pr hrun
  refine ⟨?_, ?_, ?_, ?_⟩
  · intro cps hc hso
    simp [get_video_title, titleClassify, hrun, hc, hso]
  · intro c hc hc0
    simp [get_video_title, titleClassify, hrun, hc, hc0]
  · intro hc
    simp [get_video_title, titleClassify, hrun, hc]
  · intro hc hso
    simp [get_video_title, titleClassify, hrun, hc, hso]

/-- Witness for C3: a title process exiting 0 with stdout " hi\n" resolves
to the trimmed title "hi". -/
theorem C3_title_classification_witness :
    get_video_title (fun _ => .ok ⟨some 0, [32, 104, 105, 10], []⟩)
      "https://example.com/v" = .ok [104, 105] :=
  (C3_title_classification (fun _ => .ok ⟨some 0, [32, 104, 105, 10], []⟩)
      "https://example.com/v" ⟨some 0, [32, 104, 105, 10], []⟩ rfl).1
    [32, 104, 105, 10] rfl rfl

/-- C4: a title-phase error never aborts the request: whenever
`get_video_title` fails and the fetch succeeds, the handler still returns
the 200 response and the Content-Disposition filename is the literal
fallback "video". -/
theorem C4_title_fallback (run : List String → SpawnResult)
    (tmpdir uuid url : String) (fs1 : List String) (openErr : Option Nat)
    (e : DownloadError) (s : ReaderStream) (fs2 : List String)
    (hT : get_video_title run url = .error e)
    (hF : get_video_stream run tmpdir uuid url fs1 openErr = (.ok s, fs2)) :
    download_video run ⟨url⟩ tmpdir uuid fs1 openErr =
      (.ok 200 (strBytes "attachment; filename=" ++ fallbackFilename)
        (strBytes "application/octet-stream") s, fs2) := by
  simp [download_video, hT, hF]

/-- Witness for C4: title spawn fails with an io error, fetch exits 0 and
the file opens; the request succeeds with the fallback filename. -/
theorem C4_title_fallback_witness :
    download_video
      (fun args => if "--print" ∈ args then .ioError 0 else .ok ⟨some 0, [], []⟩)
      ⟨"https://example.com/v"⟩ "/tmp" "u" [] none =
      (.ok 200 (strBytes "attachment; filename=" ++ fallbackFilename)
        (strBytes "application/octet-stream") ⟨tempFilePath "/tmp" "u"⟩, []) :=
  C4_title_fallback _ "/tmp" "u" "https://example.com/v" [] none
    (.TitleCommand 0) ⟨tempFilePath "/tmp" "u"⟩ [] rfl rfl

/-- C5: whenever the fetch succeeds the handler's response has status 200,
Content-Disposition "attachment; filename=" followed by the percent-encoded
resolved-or-fallback title, Content-Type "application/octet-stream", and the
fetched stream as body. -/
theorem C5_success_response (run : List String → SpawnResult)
    (tmpdir uuid url : String) (fs1 : List String) (openErr : Option Nat)
    (s : ReaderStream) (fs2 : List String)
    (hF : get_video_stream run tmpdir uuid url fs1 openErr = (.ok s, fs2)) :
    download_video run ⟨url⟩ tmpdir uuid fs1 openErr =
      (.ok 200
        (strBytes "attachment; filename=" ++
          percentEncode (encodeUtf8 (resolvedTitle (get_video_title run url))))
        (strBytes "application/octet-stream") s, fs2) := by
  rcases hT : get_video_title run url with e | t
  · have hframe : percentEncode (encodeUtf8 (strBytes "video")) = fallbackFilename := by
      decide
    simp [download_video, hT, hF, resolvedTitle, hframe]
  · simp [download_video, hT, hF, resolvedTitle]

/-- Witness for C5: fetch exits 0 with title "Hi"; the handler returns the
200 response with the encoded title in the Content-Disposition header. -/
theorem C5_success_response_witness :
    download_video (fun _ => .ok ⟨some 0, [72, 105], []⟩)
      ⟨"https://example.com/v"⟩ "/tmp" "u" [] none =
      (.ok 200
        (strBytes "attachment; filename=" ++
          percentEncode (encodeUtf8 (resolvedTitle (get_video_title
            (fun _ => .ok ⟨some 0, [72, 105], []⟩) "https://example.com/v"))))
        (strBytes "application/octet-stream") ⟨tempFilePath "/tmp" "u"⟩, []) :=
  C5_success_response _ "/tmp" "u" "https://example.com/v" [] none
    ⟨tempFilePath "/tmp" "u"⟩ [] rfl

/-- C7: the fetch phase allocates the temp path as the temp directory joined
with the fixed "ytdlp-web-" name part, the fresh identifier, and the ".mp4"
extension; the single invocation targets exactly that path, the outcome
never consults the filesystem argument (no existence check, no retry), and
the path determines the identifier (distinct identifiers never collide). -/
theorem C7_temp_path_allocation :
    (∀ tmpdir uuid, tempFilePath tmpdir uuid =
      tmpdir ++ "/" ++ "ytdlp-web-" ++ uuid ++ ".mp4") ∧
    (∀ run tmpdir uuid url fs1 openErr,
      get_video_stream run tmpdir uuid url fs1 openErr =
        (fetchClassify (run (fetchCmdArgs (tempFilePath tmpdir uuid) url))
          openErr (tempFilePath tmpdir uuid), fs1)) ∧
    (∀ run tmpdir uuid url fs1 fs2 openErr,
      (get_video_stream run tmpdir uuid url fs1 openErr).1 =
      (get_video_stream run tmpdir uuid url fs2 openErr).1) ∧
    (∀ tmpdir uuid uuid2,
      tempFilePath tmpdir uuid = tempFilePath tmpdir uuid2 → uuid = uuid2) := by
  refine ⟨fun _ _ => rfl, fun _ _ _ _ _ _ => rfl, fun _ _ _ _ _ _ _ => rfl, ?_⟩
  intro tmpdir uuid uuid2 h
  have hd := congrArg String.data h
  simp only [tempFilePath, String.data_append, List.append_assoc] at hd
  have h1 := List.append_cancel_left hd
  have h2 := List.append_cancel_left h1
  have h3 := List.append_cancel_left h2
  have h4 := List.append_cancel_right h3
  cases uuid
  cases uuid2
  exact congrArg String.mk h4

/-- Witness for C7: the concrete shape of an allocated path, and the
injectivity conjunct applied at a concrete identifier. -/
theorem C7_temp_path_allocation_witness :
    tempFilePath "/tmp" "abc" = "/tmp/ytdlp-web-abc.mp4" ∧ ("x" : String) = "x" :=
  ⟨C7_temp_path_allocation.1 "/tmp" "abc",
   C7_temp_path_allocation.2.2.2 "/tmp" "x" "x" rfl⟩

/-- C8 counterexample: the claim's invariant "url is non-empty" is not
established by the code: a request whose url is the empty string is accepted
and processed like any other, the empty string being handed to both
invocations as their final argument, and (with a cooperating extractor) the
request even succeeds. -/
theorem C8_empty_url_accepted :
    (download_video (fun _ => .ok ⟨some 0, [], []⟩) ⟨""⟩ "/tmp" "u" [] none).1 =
      .ok 200 (strBytes "attachment; filename=")
        (strBytes "application/octet-stream") ⟨tempFilePath "/tmp" "u"⟩ ∧
    (titleCmdArgs "").getLast? = some "" ∧
    (fetchCmdArgs (tempFilePath "/tmp" "u") "").getLast? = some "" :=
  ⟨rfl, rfl, rfl⟩

/-- C8 (amended): the core performs no validation on the url (it may be any
string, the empty string included): whatever string arrives is passed
verbatim as the final argument of both the title-mode and the fetch-mode
argument lists, and the handler's behaviour depends on the run oracle only
through its answers on those two argument lists. -/
theorem C8_url_passed_verbatim :
    (∀ url, (titleCmdArgs url).getLast? = some url) ∧
    (∀ path url, (fetchCmdArgs path url).getLast? = some url) ∧
    (∀ (run run2 : List String → SpawnResult) (payload : DownloadVideoRequest)
       (tmpdir uuid : String) (fs1 : List String) (openErr : Option Nat),
      run (titleCmdArgs payload.url) = run2 (titleCmdArgs payload.url) →
      run (fetchCmdArgs (tempFilePath tmpdir uuid) payload.url) =
        run2 (fetchCmdArgs (tempFilePath tmpdir uuid) payload.url) →
      download_video run payload tmpdir uuid fs1 openErr =
        download_video run2 payload tmpdir uuid fs1 openErr) := by
  refine ⟨fun url => rfl, fun path url => rfl, ?_⟩
  intro run run2 payload tmpdir uuid fs1 openErr h1 h2
  simp [download_video, get_video_title, get_video_stream, h1, h2]

/-- Witness for C8: two syntactically different oracles agreeing on the two
built argument lists give identical handler results. -/
theorem C8_url_passed_verbatim_witness :
    download_video (fun _ => .ioError 5) ⟨"https://example.com/v"⟩
        "/tmp" "u" [] none =
      download_video (fun args => if args.length = 7 then .ioError 5 else .ioError 6)
        ⟨"https://example.com/v"⟩ "/tmp" "u" [] none :=
  C8_url_passed_verbatim.2.2 (fun _ => .ioError 5)
    (fun args => if args.length = 7 then .ioError 5 else .ioError 6)
    ⟨"https://example.com/v"⟩ "/tmp" "u" [] none rfl rfl

/-- C9: the two phases classify in different orders: the title phase checks
the exit status before decoding stdout, so a non-zero exit with invalid
UTF-8 stdout is TitleExitErrorCode; the fetch phase decodes stdout and
stderr first, so a non-zero exit with invalid UTF-8 captured output is
FromUtf8 rather than VideoExitErrorCode. -/
theorem C9_classification_order :
    (∀ (run : List String → SpawnResult) (url : String) (pr : ProcessResult)
       (c : Int), run (titleCmdArgs url) = .ok pr → pr.code = some c → c ≠ 0 →
       decodeUtf8 pr.stdout = none →
       get_video_title run url = .error (.TitleExitErrorCode c)) ∧
    (∀ (run : List String → SpawnResult) (tmpdir uuid url : String)
       (fs1 : List String) (openErr : Option Nat) (pr : ProcessResult) (c : Int),
       run (fetchCmdArgs (tempFilePath tmpdir uuid) url) = .ok pr →
       pr.code = some c → c ≠ 0 →
       (decodeUtf8 pr.stdout = none ∨ decodeUtf8 pr.stderr = none) →
       (get_video_stream run tmpdir uuid url fs1 openErr).1 =
         .error .FromUtf8) := by
  constructor
  · intro run url pr c hrun hc hc0 hso
    simp [get_video_title, titleClassify, hrun, hc, hc0]
  · intro run tmpdir uuid url fs1 openErr pr c hrun hc hc0 hbad
    rcases hbad with hso | hse
    · simp [get_video_stream, fetchClassify, hrun, hso]
    · rcases hso : decodeUtf8 pr.stdout with _ | so
      · simp [get_video_stream, fetchClassify, hrun, hso]
      · simp [get_video_stream, fetchClassify, hrun, hso, hse]

/-- Witness for C9: one process result (exit code 1, stdout the invalid
UTF-8 byte 0xFF) classified by both phases: TitleExitErrorCode 1 in the
title phase, FromUtf8 in the fetch phase. -/
theorem C9_classification_order_witness :
    get_video_title (fun _ => .ok ⟨some 1, [255], []⟩) "https://example.com/v" =
      .error (.TitleExitErrorCode 1) ∧
    (get_video_stream (fun _ => .ok ⟨some 1, [255], []⟩) "/tmp" "u"
      "https://example.com/v" [] none).1 = .error .FromUtf8 :=
  ⟨C9_classification_order.1 _ "https://example.com/v" ⟨some 1, [255], []⟩ 1
      rfl rfl (by decide) rfl,
   C9_classification_order.2 _ "/tmp" "u" "https://example.com/v" [] none
      ⟨some 1, [255], []⟩ 1 rfl rfl (by decide) (Or.inl rfl)⟩

theorem literalHeaderBytes_valid :
    ∀ b ∈ strBytes "attachment; filename=", isValidHeaderByte b = true := by
  decide

/-- C10: the header value the handler builds never fails to parse: every
byte of "attachment; filename=" followed by the percent-encoding of any
byte string is a valid HTTP header value byte, so the unwrap after parse is
unreachable. -/
theorem C10_header_value_valid (t : List Nat) (ht : ∀ b ∈ t, b < 256) :
    ∀ b ∈ strBytes "attachment; filename=" ++ percentEncode t,
      isValidHeaderByte b = true := by
  intro b hb
  rcases List.mem_append.1 hb with h | h
  · exact literalHeaderBytes_valid b h
  · exact percentEncode_validHeader t ht b h

/-- Witness for C10: the full header value for a title made of hash, space
and a non-ASCII character is byte-for-byte valid. -/
theorem C10_header_value_valid_witness :
    (strBytes "attachment; filename=" ++
      percentEncode [35, 32, 206, 169]).all isValidHeaderByte = true :=
  List.all_eq_true.2
    (fun b hb => C10_header_value_valid [35, 32, 206, 169] (by decide) b hb)
